import Mathlib

/-!
Shallow embedding of the entity indexing and similarity-query subsystem of
kge-server, covering:

* `data_access/entity_dao.py` — the Elasticsearch-backed suggestion index
  (`EntityDAO.generate_index`, `EntityDAO.insert_entity`,
  `EntityDAO.suggest_entity`), modelled over an explicit association-list
  store keyed by index name (for indices) and by document id (for documents);
* `endpoints/dataset_prediction.py` — the similarity and distance HTTP
  endpoints (`PredictSimilarEntitiesResource.on_get`, `.on_post`,
  `DistanceTriples.on_post`), modelled as pure functions from a request
  context plus request data to an outcome value.

Python exceptions are modelled with explicit sum types; Python's
`str(KeyError(k))`, which renders the key with surrounding single quotes,
is modelled faithfully because the source compares that rendering against
unquoted literals. Distances, which the code only passes through, are
modelled as rationals.
-/

/-! ## Elasticsearch index provisioning (`EntityDAO.generate_index`) -/

/-- The completion-suggester field configuration built in
`generate_index` (`suggest_field` in the source). -/
structure SuggestFieldCfg where
  fieldType : String
  analyzer : String
  search_analyzer : String
  preserve_separators : Bool
  preserve_position_increments : Bool
deriving DecidableEq, Repr

/-- Model of the index `body` dict assembled by `generate_index`:
the per-type mapping properties and the custom-analyzer settings. -/
structure IndexBody where
  mappingType : String
  properties : List (String × String)
  labelSuggest : SuggestFieldCfg
  analyzerTokenizer : String
  analyzerFilter : List String
  asciiFoldingPreserveOriginal : Bool
deriving DecidableEq, Repr

/-- The exact body `generate_index` builds for dataset type `ty`
(lines 74-110 of `entity_dao.py`). -/
def indexBodyFor (ty : String) : IndexBody :=
  { mappingType := ty
    properties := [("entity", "string"), ("description", "object"),
                   ("label", "object"), ("alt_label", "object"),
                   ("label_suggest", "completion")]
    labelSuggest :=
      { fieldType := "completion"
        analyzer := "my_custom_analyzer"
        search_analyzer := "standard"
        preserve_separators := false
        preserve_position_increments := false }
    analyzerTokenizer := "standard"
    analyzerFilter := ["lowercase", "my_ascii_folding"]
    asciiFoldingPreserveOriginal := true }

/-- Exceptions raised by the Elasticsearch indices API, as used by the
source (`elasticsearch.exceptions.NotFoundError` on deleting an absent
index; create on an existing index also fails). -/
inductive EsIndicesExn where
  | notFoundError
  | resourceAlreadyExists
deriving DecidableEq, Repr

/-- The set of indices known to Elasticsearch: name paired with the body
it was created with. -/
abbrev EsIndices := List (String × IndexBody)

/-- Model of `es.indices.delete(index=name)`: removes the named index,
raising `NotFoundError` when no such index exists. -/
def indicesDelete (ixs : EsIndices) (name : String) :
    Except EsIndicesExn EsIndices :=
  if ixs.any (fun p => p.1 == name) then
    .ok (ixs.filter (fun p => !(p.1 == name)))
  else
    .error .notFoundError

/-- Model of `es.indices.create(index=name, body=body)`: adds the index,
failing when one of that name already exists. -/
def indicesCreate (ixs : EsIndices) (name : String) (body : IndexBody) :
    Except EsIndicesExn EsIndices :=
  if ixs.any (fun p => p.1 == name) then
    .error .resourceAlreadyExists
  else
    .ok (ixs ++ [(name, body)])

/-- `EntityDAO.generate_index` (lines 66-115): builds the body, then
`try: es.indices.delete(indexName) except NotFoundError: pass`, then
`es.indices.create(indexName, body)`. -/
def generate_index (ixs : EsIndices) (indexName ty : String) :
    Except EsIndicesExn EsIndices :=
  match indicesDelete ixs indexName with
  | .ok ixs2 => indicesCreate ixs2 indexName (indexBodyFor ty)
  | .error .notFoundError => indicesCreate ixs indexName (indexBodyFor ty)
  | .error e => .error e

/-- Body the index carries after provisioning, looked up by name. -/
def indexBodyOf (ixs : EsIndices) (name : String) : Option IndexBody :=
  (ixs.find? (fun p => p.1 == name)).map Prod.snd

/-! ## Suggestion-index documents (`EntityDAO.insert_entity`) -/

/-- The `entity` dict handed to `insert_entity`: an identifier, plus
per-language-code `label` and `description` strings and per-language-code
lists of alternative labels. Python dicts are modelled as association
lists in insertion order. -/
structure EntityInput where
  entity : String
  label : List (String × String)
  description : List (String × String)
  alt_label : List (String × List String)
deriving DecidableEq, Repr

/-- A document stored in the `entities` index. `datasets` is `none` when
the document was created by the `doc_as_upsert` write (whose `full_doc`
carries no `datasets` key) and the membership script has not run yet. -/
structure EsDoc where
  entity : String
  description : List (String × String)
  label : List (String × String)
  alt_label : List (String × List String)
  label_suggest : List String
  datasets : Option (List Nat)
deriving DecidableEq, Repr

/-- The document store of one index: documents keyed by id, in insertion
order (Elasticsearch keeps at most one document per id; the operations
below touch the first entry with the given key). -/
abbrev EsStore := List (String × EsDoc)

/-- `suggestions` in `insert_entity` (lines 170-172):
`list(entity['label'].values())` followed by the flattened
`alt_label` value lists. -/
def suggestionsOf (e : EntityInput) : List String :=
  e.label.map Prod.snd ++ (e.alt_label.map Prod.snd).flatten

/-- The document created when the `doc_as_upsert` write finds no existing
document: exactly `full_doc` (lines 174-179), which has no `datasets`
field. -/
def newDoc (e : EntityInput) : EsDoc :=
  { entity := e.entity
    description := e.description
    label := e.label
    alt_label := e.alt_label
    label_suggest := suggestionsOf e
    datasets := none }

/-- The effect of the `doc_as_upsert` write on an existing document: the
five fields of `full_doc` are overwritten, every other field (`datasets`)
is kept. -/
def refreshFields (d : EsDoc) (e : EntityInput) : EsDoc :=
  { entity := e.entity
    description := e.description
    label := e.label
    alt_label := e.alt_label
    label_suggest := suggestionsOf e
    datasets := d.datasets }

/-- Model of the first `es.update(... doc, doc_as_upsert=True ...)` call:
update the document with the given id in place, or append a fresh one. -/
def updateDocAsUpsert : EsStore → String → EntityInput → EsStore
  | [], k, e => [(k, newDoc e)]
  | p :: rest, k, e =>
    if p.1 == k then (p.1, refreshFields p.2 e) :: rest
    else p :: updateDocAsUpsert rest k e

/-- The painless script of `insert_entity` (lines 194-198): if the
document has no `datasets` field, set it to the one-element list, else
append the dataset id only when not already present. -/
def mergeDataset (d : Option (List Nat)) (dsId : Nat) : List Nat :=
  match d with
  | none => [dsId]
  | some l => if dsId ∈ l then l else l ++ [dsId]

/-- Applying the painless script to one document. -/
def applyDatasetScript (d : EsDoc) (dsId : Nat) : EsDoc :=
  { d with datasets := some (mergeDataset d.datasets dsId) }

/-- Model of the second `es.update(... script ...)` call: run the script
on the document with the given id (always present here, because
`insert_entity` upserts first). -/
def scriptUpdate : EsStore → String → Nat → EsStore
  | [], _, _ => []
  | p :: rest, k, dsId =>
    if p.1 == k then (p.1, applyDatasetScript p.2 dsId) :: rest
    else p :: scriptUpdate rest k dsId

/-- `EntityDAO.insert_entity` (lines 161-201): the `doc_as_upsert` write
keyed by `entity['entity']`, followed by the dataset-membership script on
the same id. `dsId` is the DAO's `self.dataset_id`. -/
def insert_entity (st : EsStore) (dsId : Nat) (e : EntityInput) : EsStore :=
  scriptUpdate (updateDocAsUpsert st e.entity e) e.entity dsId

/-- Document lookup by id (Elasticsearch get-by-id). -/
def lookupDoc : EsStore → String → Option EsDoc
  | [], _ => none
  | p :: rest, k => if p.1 == k then some p.2 else lookupDoc rest k

/-- Number of documents stored under a given id. -/
def keyCount : EsStore → String → Nat
  | [], _ => 0
  | p :: rest, k => (if p.1 == k then 1 else 0) + keyCount rest k

/-- A dataset scope is a member of the document stored under `k`. -/
def scopeMem (st : EsStore) (k : String) (x : Nat) : Prop :=
  ∃ d l, lookupDoc st k = some d ∧ d.datasets = some l ∧ x ∈ l

instance (st : EsStore) (k : String) (x : Nat) :
    Decidable (scopeMem st k x) := by
  unfold scopeMem
  cases h : lookupDoc st k with
  | none => exact .isFalse (by simp [h])
  | some d =>
    cases hd : d.datasets with
    | none => exact .isFalse (by simp [h, hd])
    | some l =>
      by_cases hx : x ∈ l
      · exact .isTrue ⟨d, l, rfl, hd, hx⟩
      · exact .isFalse (by simp [h, hd, hx])

/-- Store well-formedness maintained by Elasticsearch: at most one
document per id, and no document's `datasets` list holds duplicates. -/
def EsWF (st : EsStore) : Prop :=
  (∀ k, keyCount st k ≤ 1) ∧
  (∀ p ∈ st, ∀ l, p.2.datasets = some l → l.Nodup)

/-! ## Autocomplete queries (`EntityDAO.suggest_entity`) -/

/-- Python's `str` applied to a `KeyError` renders the missing key with
surrounding single quotes (`str(KeyError("datasets")) == "'datasets'"`).
The source compares this rendering against unquoted literals, so the
rendering is modelled exactly. -/
def strKeyError (k : String) : String := "\x27" ++ k ++ "\x27"

/-- The `_source` object of one suggestion hit. Every field a processed
document is asked for is optional: an absent field raises `KeyError` in
the source. -/
structure EsSource where
  entity : Option String
  label : Option (List (String × String))
  description : Option (List (String × String))
  alt_label : Option (List (String × List String))
  datasets : Option (List Nat)
deriving DecidableEq, Repr

/-- One element of `resp['entities'][0]['options']`. -/
structure EsSuggestOption where
  source : Option EsSource
  text : Option String
deriving DecidableEq, Repr

/-- One element of the `resp['entities']` list (one per query text). -/
structure EsSuggestHit where
  options : Option (List EsSuggestOption)
deriving DecidableEq, Repr

/-- The response of `es.suggest`; the `entities` key is absent when the
query matched nothing at the engine level. -/
structure EsSuggestResp where
  entities : Option (List EsSuggestHit)
deriving DecidableEq, Repr

/-- The data `EntityDTO.__init__` copies out of a `_source` dict
(lines 29-39): `entity`, `label`, `description`, `alt_label`. -/
structure EntityDTOData where
  entity : String
  label : List (String × String)
  description : List (String × String)
  alt_label : List (String × List String)
deriving DecidableEq, Repr

/-- One element of the list `suggest_entity` returns:
`{"entity": es_entity.to_dict(), "text": entity['text']}`. -/
structure SuggestEntry where
  entity : EntityDTOData
  text : String
deriving DecidableEq, Repr

/-- Python exceptions that can escape `suggest_entity` (the `[0]` index
on an empty `entities` list; `IndexError` is not caught anywhere). -/
inductive PyExn where
  | indexError
deriving DecidableEq, Repr

/-- The body of the `for` loop of `suggest_entity` for one option,
including its inner `try/except KeyError` (lines 143-153). The result is
`.ok (some entry)` when the document passes the dataset filter and all
fields are present, `.ok none` when the filter rejects it, and
`.error k` when a `KeyError` on key `k` escapes. The inner handler
re-raises whenever `str(invalid_key) != "datasets"`; since
`str(KeyError(k))` carries quotes, that comparison is true for every key,
including `"datasets"` itself, so every `KeyError` escapes the inner
handler. -/
def processSuggestOption (dsId : Nat) (o : EsSuggestOption) :
    Except String (Option SuggestEntry) :=
  match o.source with
  | none => .error "_source"
  | some src =>
    match src.datasets with
    | none =>
      if strKeyError "datasets" == "datasets" then .ok none
      else .error "datasets"
    | some ds =>
      if dsId ∈ ds then
        match src.entity with
        | none => .error "entity"
        | some ent =>
          match src.label with
          | none => .error "label"
          | some lab =>
            match src.description with
            | none => .error "description"
            | some dsc =>
              match src.alt_label with
              | none => .error "alt_label"
              | some al =>
                match o.text with
                | none => .error "text"
                | some tx => .ok (some ⟨⟨ent, lab, dsc, al⟩, tx⟩)
      else .ok none

/-- The `for` loop of `suggest_entity` under the outer
`try/except KeyError` (lines 141-158): entries accumulate in order; a
`KeyError` escaping an iteration reaches the outer handler, which
compares `str(invalid_key)` with `"entities"` (never equal, because of
the quotes) and therefore leaves the accumulated list as the result. -/
def collectSuggestEntries (dsId : Nat) :
    List EsSuggestOption → List SuggestEntry
  | [] => []
  | o :: rest =>
    match processSuggestOption dsId o with
    | .ok (some entry) => entry :: collectSuggestEntries dsId rest
    | .ok none => collectSuggestEntries dsId rest
    | .error k =>
      if strKeyError k == "entities" then [] else []

/-- `EntityDAO.suggest_entity` (lines 117-159) after the engine call:
`resp['entities']` missing raises `KeyError("entities")`, caught by the
outer handler with `entities` still `[]`; `resp['entities'][0]` on an
empty list raises an uncaught `IndexError`; a missing `options` key
raises `KeyError("options")`, also swallowed by the outer handler with
`entities` still `[]`. `dsId` is the DAO's `self.dataset_id`. -/
def suggest_entity (dsId : Nat) (resp : EsSuggestResp) :
    Except PyExn (List SuggestEntry) :=
  match resp.entities with
  | none => .ok []
  | some [] => .error .indexError
  | some (hit :: _) =>
    match hit.options with
    | none => .ok []
    | some opts => .ok (collectSuggestEntries dsId opts)

/-- The entries contributed by the options a given run actually
processed to completion: used to state which prefix of the options list
survives when a later option raises. -/
def okEntries (dsId : Nat) (opts : List EsSuggestOption) :
    List SuggestEntry :=
  opts.filterMap (fun o =>
    match processSuggestOption dsId o with
    | .ok (some entry) => some entry
    | _ => none)

/-! ## HTTP endpoint models (`endpoints/dataset_prediction.py`) -/

/-- The falcon errors the two endpoint handlers raise. -/
inductive HTTPErr where
  | notFound (description : String)
  | conflict (title description : String)
  | badRequest (title description : String)
  | missingParam (param : String)
  | invalidParam (msg param : String)
deriving DecidableEq, Repr

/-- The collaborators one request sees, after the DAO wiring of the
handlers: the dataset DTO (absent when `get_dataset_by_id` fails, with
the stringified error), the search index (absent when the dataset is not
ready), the dataset object's reference/id mappings, and the
`kgeserver.server.Server` query operations. Distances are rationals,
ids the `Nat` identifiers of the vector index. -/
structure ServerCtx where
  dto : Option String
  dtoErr : String
  searchIndex : Option String
  indexErr : String
  getEntityId : String → Option Nat
  getEntity : Nat → Option String
  similarityById : Nat → Int → Int → List (Nat × Rat)
  similarityByEmbedding : List Rat → Int → Int → List (Nat × Rat)
  distanceBetween : Nat → Nat → Rat

/-- Lines 71-75: the `limit` query parameter defaults to 10 and is then
incremented, "because server returns also the identical triple". This is
the value actually passed to the oracle. -/
def onGetLimitArg (lp : Option Int) : Int := lp.getD 10 + 1

/-- Lines 78-80: the `search_k` query parameter defaults to -1. -/
def onGetSearchK (skp : Option Int) : Int := skp.getD (-1)

/-- The entity argument of `on_get`: an identifier, or an embedding
vector when the `embedding` flag is set. -/
inductive EntityParam where
  | ref (s : String)
  | emb (v : List Rat)
deriving DecidableEq, Repr

/-- The `entity_used` object echoed in the response (lines 90-93 and
106-109). -/
inductive EntityUsed where
  | uri (value : Option String)
  | embeddingVec (value : List Rat)
deriving DecidableEq, Repr

/-- One element of `similar_entities` as shaped by the comprehension on
lines 86-88 / 103-105: `dataset.get_entity(e_id)` (possibly `None`)
paired with the oracle's distance. -/
structure SimEntry where
  entity : Option String
  distance : Rat
deriving DecidableEq, Repr

/-- The `similar_entities` half of the 200 response (lines 111-119):
`limit` echoes `len(similar_entities)`. -/
structure SimilarResult where
  dataset : String
  entityUsed : EntityUsed
  limit : Nat
  searchK : Int
  response : List SimEntry
deriving DecidableEq, Repr

/-- `PredictSimilarEntitiesResource.on_get` (lines 38-122): dataset
lookup, readiness check, parameter defaulting, then either the
by-embedding or the by-reference oracle query, each mapped through
`dataset.get_entity`. -/
def predictSimilar_on_get (ctx : ServerCtx) (e : EntityParam)
    (lp skp : Option Int) : Except HTTPErr SimilarResult :=
  match ctx.dto with
  | none => .error (.notFound ctx.dtoErr)
  | some dsetDict =>
    match ctx.searchIndex with
    | none => .error (.conflict "Dataset not ready perform search operation"
        ctx.indexErr)
    | some _ =>
      let limit := onGetLimitArg lp
      let search_k := onGetSearchK skp
      match e with
      | .emb v =>
        let sims := (ctx.similarityByEmbedding v limit search_k).map
          (fun p => SimEntry.mk (ctx.getEntity p.1) p.2)
        .ok { dataset := dsetDict, entityUsed := .embeddingVec v,
              limit := sims.length, searchK := search_k, response := sims }
      | .ref s =>
        match ctx.getEntityId s with
        | none => .error (.notFound
            ("The " ++ s ++ " entity can\x27t be found inside dataset."))
        | some eid =>
          let sims := (ctx.similarityById eid limit search_k).map
            (fun p => SimEntry.mk (ctx.getEntity p.1) p.2)
          .ok { dataset := dsetDict, entityUsed := .uri (ctx.getEntity eid),
                limit := sims.length, searchK := search_k, response := sims }

/-- The JSON value under `body['entity']['value']`: a reference string or
an embedding vector. -/
inductive SimValue where
  | vstr (s : String)
  | vvec (v : List Rat)
deriving DecidableEq, Repr

/-- The `body['entity']` object; either key may be absent. `ty` models
the `type` key. -/
structure SimPostEntityField where
  value : Option SimValue
  ty : Option String
deriving DecidableEq, Repr

/-- The decoded POST body of the similarity endpoint. -/
structure SimPostBody where
  entity : Option SimPostEntityField
deriving DecidableEq, Repr

/-- Rendering of a `SimValue` inside Python's `str(dict)` (strings are
quoted; the vector rendering is a modelled stand-in, the claims never
depend on its exact characters). -/
def pyReprSimValue : SimValue → String
  | .vstr s => "\x27" ++ s ++ "\x27"
  | .vvec v => toString (v.map (fun q => toString q))

/-- Modelled Python `str` of the `body['entity']` dict, keys in the
documented body order. -/
def pyReprEntityField (ef : SimPostEntityField) : String :=
  "\x7b" ++ String.intercalate ", "
    ((match ef.value with
      | some v => ["\x27value\x27: " ++ pyReprSimValue v]
      | none => []) ++
     (match ef.ty with
      | some t => ["\x27type\x27: \x27" ++ t ++ "\x27"]
      | none => [])) ++ "\x7d"

/-- The 400 message of lines 153-154. -/
def noEntityMsg : String :=
  "Must contain a entity object in json. " ++
  "Please, take a look to the documentation."

/-- The 400 message of lines 149-151 for an unrecognized type value. -/
def unrecognizedTypeMsg (t : String) (ef : SimPostEntityField) : String :=
  "The type \x27" ++ t ++ "\x27 of the entity " ++ pyReprEntityField ef ++
  " is not recognized. Please, take a look to the documentation."

/-- What `PredictSimilarEntitiesResource.on_post` does with a decoded
body: delegate to `on_get` (with or without the `embedding` flag),
answer 400 with a message, or crash on an uncaught `KeyError` when
`body['entity']['value']` is absent in a recognized-type branch. -/
inductive SimPostOutcome where
  | getCalled (value : SimValue) (embedding : Bool)
  | badRequest400 (msg : String)
  | keyErrorCrash (k : String)
deriving DecidableEq, Repr

/-- Python's `str.lower()` as used on the `type` value (character-wise
lowercasing; the values compared against are ASCII). -/
def pyLower (s : String) : String := String.mk (s.data.map Char.toLower)

/-- `PredictSimilarEntitiesResource.on_post` (lines 124-158): requires
`'entity' in body and 'type' in body['entity']`, lowercases the type and
dispatches on `"uri"` / `"embedding"`, else builds the 400 response. -/
def predictSimilar_on_post (body : SimPostBody) : SimPostOutcome :=
  match body.entity with
  | none => .badRequest400 noEntityMsg
  | some ef =>
    match ef.ty with
    | none => .badRequest400 noEntityMsg
    | some t =>
      if pyLower t == "uri" then
        match ef.value with
        | none => .keyErrorCrash "value"
        | some v => .getCalled v false
      else if pyLower t == "embedding" then
        match ef.value with
        | none => .keyErrorCrash "value"
        | some v => .getCalled v true
      else .badRequest400 (unrecognizedTypeMsg t ef)

/-- The JSON value found under `body["distance"]`: the documented list of
two references, or a malformed value (a string, or a non-sized value such
as a number). -/
inductive DistanceVal where
  | vlist (xs : List String)
  | vstr (s : String)
  | vint (n : Int)
deriving DecidableEq, Repr

/-- Outcome of the body-validation prologue of `DistanceTriples.on_post`
(lines 171-195): a raised falcon error, the two references reaching the
resolution phase, or an uncaught Python exception. -/
inductive DistanceParse where
  | invalid (e : HTTPErr)
  | proceed (x y : String)
  | crash
deriving DecidableEq, Repr

/-- The message of lines 180-181; the source's two adjacent string
literals concatenate without a space, so the message really says
"twoentities". -/
def distanceParamMsg : String :=
  "The param \x27distance\x27 must contain a list of twoentities."

/-- The catch-all 400 of lines 188-195 (`extra` is always the initial
"could not decode" text, assigned on line 172 before the body is read). -/
def bodyNotLoadedErr : HTTPErr :=
  .badRequest "HTTP Body request not loaded correctly"
    ("The body couldn\x27t be correctly loaded from HTTP request. " ++
     "Please, read the documentation carefully and try again. " ++
     "Extra info: Couldn\x27t decode the input stream (body).")

/-- The validation prologue of `DistanceTriples.on_post`. The guard on
lines 178-179 is `not isinstance(body["distance"], list) and
len(body["distance"]) != 2`: for a list it is false regardless of length
(the conjunction short-circuits), so the indexing on lines 185-186 runs
and an undersized list raises an uncaught `IndexError`; for a string the
guard reduces to the length test, a length-2 string passing on its two
characters; for a number `len` raises `TypeError`, caught by the
`except` clause as the generic 400. -/
def parseDistanceBody : Option DistanceVal → DistanceParse
  | none => .invalid (.missingParam "distance")
  | some (.vint _) => .invalid bodyNotLoadedErr
  | some (.vlist xs) =>
    match xs.get? 0, xs.get? 1 with
    | some x, some y => .proceed x y
    | _, _ => .crash
  | some (.vstr s) =>
    match s.data with
    | [c1, c2] => .proceed (String.mk [c1]) (String.mk [c2])
    | _ => .invalid (.invalidParam distanceParamMsg "distance")

/-- Python's `str` of the optional internal id as interpolated into the
not-found message: `str(None) == "None"`, `str(n)` the decimal digits. -/
def pyStrOptNat : Option Nat → String
  | none => "None"
  | some n => Nat.repr n

/-- The 404 description of lines 216-219, with `id_x, entity_x, id_y,
entity_y` interpolated into the template. -/
def distanceNotFoundDesc (ix : Option Nat) (x : String)
    (iy : Option Nat) (y : String) : String :=
  "The " ++ pyStrOptNat ix ++ " id from entity " ++ x ++ " or the " ++
    pyStrOptNat iy ++ " id from " ++ y ++
    " entity can\x27t be found on the dataset"

/-- Result of the whole distance request. -/
inductive DistanceOutcome where
  | ok (d : Rat)
  | err (e : HTTPErr)
  | crash
deriving DecidableEq, Repr

/-- `DistanceTriples.on_post` (lines 163-225): body validation, dataset
lookup, readiness check, resolution of both references (the 404 raised
when either id is `None`), then the oracle's pairwise distance. -/
def distanceTriples_on_post (ctx : ServerCtx) (body : Option DistanceVal) :
    DistanceOutcome :=
  match parseDistanceBody body with
  | .invalid e => .err e
  | .crash => .crash
  | .proceed x y =>
    match ctx.dto with
    | none => .err (.notFound ctx.dtoErr)
    | some _ =>
      match ctx.searchIndex with
      | none => .err (.conflict "Dataset not ready perform search operation"
          ctx.indexErr)
      | some _ =>
        match ctx.getEntityId x, ctx.getEntityId y with
        | some nx, some ny => .ok (ctx.distanceBetween nx ny)
        | none, iy => .err (.notFound (distanceNotFoundDesc none x iy y))
        | some nx, none =>
          .err (.notFound (distanceNotFoundDesc (some nx) x none y))

/-- Reads the first interpolated id back out of the not-found
description: the token after "The " up to the first space. -/
def firstIdToken (desc : String) : String :=
  String.mk ((desc.data.drop "The ".length).takeWhile (fun c => c ≠ ' '))

/-- Reads the second interpolated id back out of the not-found
description for a known second reference `y`: the space-free token that
precedes the fixed `" id from " ++ y ++ " entity can't be found on the
dataset"` tail. -/
def secondIdToken (y : String) (desc : String) : String :=
  String.mk (((desc.data.reverse.drop
      (" entity can\x27t be found on the dataset".length + y.length +
       " id from ".length)).takeWhile (fun c => c ≠ ' ')).reverse)

/-! ## Accessors and concrete inputs used by the verification -/

/-- The options list the loop of `suggest_entity` iterates over, for a
given engine response (empty when the loop is never entered). -/
def respOptions (resp : EsSuggestResp) : List EsSuggestOption :=
  match resp.entities with
  | some (hit :: _) => hit.options.getD []
  | _ => []

/-- A concrete entity input (the "Paris" entity of the spec examples). -/
def parisInput : EntityInput :=
  ⟨"Q1", [("en", "Paris")], [("en", "capital")], [("en", ["Lutetia"])]⟩

/-- A suggestion hit whose document is scoped to datasets 1 and 2 and has
every field present. -/
def parisOption : EsSuggestOption :=
  ⟨some ⟨some "Q1", some [("en", "Paris")], some [("en", "capital")],
         some [("en", ["Lutetia"])], some [1, 2]⟩, some "Paris"⟩

/-- The entry `suggest_entity` builds from `parisOption`. -/
def parisEntry : SuggestEntry :=
  ⟨⟨"Q1", [("en", "Paris")], [("en", "capital")], [("en", ["Lutetia"])]⟩,
   "Paris"⟩

/-- A suggestion hit whose document has no `datasets` field at all. -/
def unscopedOption : EsSuggestOption :=
  ⟨some ⟨some "Q2", some [("en", "Lyon")], some [], some [], none⟩,
   some "Lyon"⟩

/-- A suggestion hit whose document is in scope but lacks the `text`
key, so processing it raises `KeyError("text")`. -/
def missingTextOption : EsSuggestOption :=
  ⟨some ⟨some "Q3", some [("en", "Nice")], some [], some [], some [1]⟩,
   none⟩

/-- A ready request context realizing the oracle of the spec example:
`nearest(Q1, k) = [(Q1,0.0), (Q2,0.4), (Q3,0.9)]`. -/
def ctxC1 : ServerCtx :=
  { dto := some "D1", dtoErr := "", searchIndex := some "index", indexErr := ""
    getEntityId := fun s =>
      if s == "Q1" then some 0 else if s == "Q2" then some 1
      else if s == "Q3" then some 2 else none
    getEntity := fun n =>
      if n == 0 then some "Q1" else if n == 1 then some "Q2"
      else if n == 2 then some "Q3" else none
    similarityById := fun _ _ _ => [(0, 0), (1, 2/5), (2, 9/10)]
    similarityByEmbedding := fun _ _ _ => []
    distanceBetween := fun _ _ => 0 }

/-- The response `on_get` builds in `ctxC1` for query `Q1`, `limit=2`. -/
def simC1Result : SimilarResult :=
  { dataset := "D1", entityUsed := .uri (some "Q1"), limit := 3,
    searchK := -1,
    response := [⟨some "Q1", 0⟩, ⟨some "Q2", 2/5⟩, ⟨some "Q3", 9/10⟩] }

/-- A ready context resolving the references "a" and "b", used to show
the wrong-arity distance body reaching the resolution phase. -/
def ctxC2 : ServerCtx :=
  { dto := some "D1", dtoErr := "", searchIndex := some "index", indexErr := ""
    getEntityId := fun s =>
      if s == "a" then some 0 else if s == "b" then some 1 else none
    getEntity := fun _ => none
    similarityById := fun _ _ _ => []
    similarityByEmbedding := fun _ _ _ => []
    distanceBetween := fun _ _ => 1/2 }

/-- A ready context in which "Qx" is unresolvable and "Qy" resolves. -/
def ctxC5 : ServerCtx :=
  { dto := some "D1", dtoErr := "", searchIndex := some "index", indexErr := ""
    getEntityId := fun s => if s == "Qy" then some 7 else none
    getEntity := fun _ => none
    similarityById := fun _ _ _ => []
    similarityByEmbedding := fun _ _ _ => []
    distanceBetween := fun _ _ => 0 }

/-! ## Theorems -/

/-- C7: `generate_index` first deletes any existing index of the same
name and then creates the new one; the `NotFoundError` from deleting a
nonexistent index is swallowed, so provisioning succeeds whether or not
the index previously existed, always leaving exactly one index of that
name, carrying the freshly built body. -/
theorem generate_index_recreates (ixs : EsIndices) (name ty : String) :
    ∃ ixs2, generate_index ixs name ty = .ok ixs2 ∧
      indexBodyOf ixs2 name = some (indexBodyFor ty) ∧
      ixs2.countP (fun p => p.1 == name) = 1 := by
  unfold generate_index indicesDelete indicesCreate indexBodyOf
  by_cases h : ixs.any (fun p => p.1 == name) = true
  · have hfilter :
        (ixs.filter (fun p => !(p.1 == name))).any (fun p => p.1 == name)
          = false := by
      simp [List.any_eq_false, List.mem_filter]
    have hfind :
        (ixs.filter (fun p => !(p.1 == name))).find? (fun p => p.1 == name)
          = none := by
      rw [List.find?_eq_none]
      intro x hx
      simp [List.mem_filter] at hx
      simp [hx.2]
    simp only [h, if_true, hfilter, Bool.false_eq_true, if_false]
    refine ⟨_, rfl, ?_, ?_⟩
    · rw [List.find?_append, hfind]
      simp
    · rw [List.countP_append]
      have : (ixs.filter (fun p => !(p.1 == name))).countP
          (fun p => p.1 == name) = 0 := by
        rw [List.countP_eq_zero]
        intro a ha
        simp [List.mem_filter] at ha
        simp [ha.2]
      simp [this, List.countP_cons]
  · have h0 : ixs.any (fun p => p.1 == name) = false := by
      exact Bool.eq_false_iff.mpr h
    have hfind : ixs.find? (fun p => p.1 == name) = none := by
      rw [List.find?_eq_none]
      intro x hx
      have := (List.any_eq_false.mp h0) x hx
      simpa using this
    have hcount : ixs.countP (fun p => p.1 == name) = 0 := by
      rw [List.countP_eq_zero]
      intro a ha
      have := (List.any_eq_false.mp h0) a ha
      simpa using this
    simp only [h0, Bool.false_eq_true, if_false]
    refine ⟨_, rfl, ?_, ?_⟩
    · rw [List.find?_append, hfind]
      simp
    · rw [List.countP_append]
      simp [hcount, List.countP_cons]

/-- Elements of the merged datasets list: the old members plus the new
scope. -/
theorem mem_mergeDataset (o : Option (List Nat)) (d x : Nat) :
    x ∈ mergeDataset o d ↔ x ∈ o.getD [] ∨ x = d := by
  cases o with
  | none => simp [mergeDataset]
  | some l =>
    by_cases h : d ∈ l
    · simp only [mergeDataset, if_pos h, Option.getD_some]
      constructor
      · exact fun hx => Or.inl hx
      · rintro (hx | rfl)
        · exact hx
        · exact h
    · simp [mergeDataset, if_neg h]

/-- The script always leaves the new scope in the list. -/
theorem self_mem_mergeDataset (o : Option (List Nat)) (d : Nat) :
    d ∈ mergeDataset o d :=
  (mem_mergeDataset o d d).mpr (Or.inr rfl)

/-- The script never introduces a duplicate scope. -/
theorem nodup_mergeDataset (o : Option (List Nat)) (d : Nat)
    (h : ∀ l, o = some l → l.Nodup) : (mergeDataset o d).Nodup := by
  cases o with
  | none => simp [mergeDataset]
  | some l =>
    have hl : l.Nodup := h l rfl
    by_cases hd : d ∈ l
    · simpa [mergeDataset, if_pos hd] using hl
    · rw [mergeDataset, if_neg hd]
      exact List.Nodup.append hl (List.nodup_singleton d)
        (by simpa [List.disjoint_singleton] using hd)

/-- Running the script on a list that already got the scope changes
nothing. -/
theorem mergeDataset_idem (o : Option (List Nat)) (d : Nat) :
    mergeDataset (some (mergeDataset o d)) d = mergeDataset o d := by
  show (if d ∈ mergeDataset o d then mergeDataset o d
        else mergeDataset o d ++ [d]) = mergeDataset o d
  rw [if_pos (self_mem_mergeDataset o d)]

/-- Lookup after the script write: the script is applied to the stored
document. -/
theorem lookupDoc_scriptUpdate (st : EsStore) (k : String) (dsId : Nat) :
    lookupDoc (scriptUpdate st k dsId) k =
      (lookupDoc st k).map (fun d => applyDatasetScript d dsId) := by
  induction st with
  | nil => rfl
  | cons p rest ih =>
    by_cases h : p.1 == k
    · simp [scriptUpdate, lookupDoc, h]
    · simp [scriptUpdate, lookupDoc, h, ih]

/-- Lookup after the `doc_as_upsert` write: the stored document is
refreshed, or a fresh one is created. -/
theorem lookupDoc_upsert (st : EsStore) (k : String) (e : EntityInput) :
    lookupDoc (updateDocAsUpsert st k e) k =
      some ((lookupDoc st k).elim (newDoc e) (fun d => refreshFields d e)) := by
  induction st with
  | nil => simp [updateDocAsUpsert, lookupDoc]
  | cons p rest ih =>
    by_cases h : p.1 == k
    · simp [updateDocAsUpsert, lookupDoc, h]
    · simp [updateDocAsUpsert, lookupDoc, h, ih]

/-- The script write touches no key's document count. -/
theorem keyCount_scriptUpdate (st : EsStore) (k : String) (dsId : Nat)
    (k2 : String) : keyCount (scriptUpdate st k dsId) k2 = keyCount st k2 := by
  induction st with
  | nil => rfl
  | cons p rest ih =>
    by_cases h : p.1 == k
    · simp [scriptUpdate, keyCount, h]
    · simp [scriptUpdate, keyCount, h, ih]

/-- The `doc_as_upsert` write adds a document only when none existed. -/
theorem keyCount_upsert (st : EsStore) (k : String) (e : EntityInput) :
    keyCount (updateDocAsUpsert st k e) k =
      if lookupDoc st k = none then keyCount st k + 1 else keyCount st k := by
  induction st with
  | nil => simp [updateDocAsUpsert, keyCount, lookupDoc]
  | cons p rest ih =>
    by_cases h : p.1 == k
    · simp [updateDocAsUpsert, keyCount, lookupDoc, h]
    · simp [updateDocAsUpsert, keyCount, lookupDoc, h, ih]

/-- An id is stored iff its document count is positive. -/
theorem lookupDoc_eq_none_iff (st : EsStore) (k : String) :
    lookupDoc st k = none ↔ keyCount st k = 0 := by
  induction st with
  | nil => simp [lookupDoc, keyCount]
  | cons p rest ih =>
    by_cases h : p.1 == k
    · simp [lookupDoc, keyCount, h]
    · simp [lookupDoc, keyCount, h, ih]

/-- A stored document is one of the store's entries. -/
theorem lookupDoc_mem (st : EsStore) (k : String) (d : EsDoc)
    (h : lookupDoc st k = some d) : ∃ kk, (kk, d) ∈ st := by
  induction st with
  | nil => simp [lookupDoc] at h
  | cons p rest ih =>
    by_cases hp : p.1 == k
    · rw [lookupDoc, if_pos hp] at h
      have hd : p.2 = d := by injection h
      subst hd
      exact ⟨p.1, by rw [Prod.mk.eta]; exact List.mem_cons_self _ _⟩
    · rw [lookupDoc, if_neg hp] at h
      obtain ⟨kk, hk⟩ := ih h
      exact ⟨kk, List.mem_cons_of_mem _ hk⟩

/-- Lookup after a full `insert_entity`: the stored (or fresh) document,
fields refreshed, with the scope merged in by the script. -/
theorem lookupDoc_insert (st : EsStore) (dsId : Nat) (e : EntityInput) :
    lookupDoc (insert_entity st dsId e) e.entity =
      some (applyDatasetScript
        ((lookupDoc st e.entity).elim (newDoc e) (fun d => refreshFields d e))
        dsId) := by
  rw [insert_entity, lookupDoc_scriptUpdate, lookupDoc_upsert]
  rfl

/-- Document count after a full `insert_entity`. -/
theorem keyCount_insert (st : EsStore) (dsId : Nat) (e : EntityInput) :
    keyCount (insert_entity st dsId e) e.entity =
      if lookupDoc st e.entity = none then keyCount st e.entity + 1
      else keyCount st e.entity := by
  rw [insert_entity, keyCount_scriptUpdate, keyCount_upsert]

/-- C3: upserting the same entity under two different dataset scopes, in
either order, and upserting it repeatedly under the same scope, leaves
exactly one document for that entity id; its `datasets` set contains both
scopes, contains no scope twice, and does not depend on the order of the
two upserts; repeating an upsert changes neither the document nor the
count. -/
theorem insert_entity_scope_merge (st : EsStore) (e : EntityInput) (A B : Nat)
    (hwf : EsWF st) :
    keyCount (insert_entity (insert_entity st A e) B e) e.entity = 1 ∧
    keyCount (insert_entity (insert_entity st B e) A e) e.entity = 1 ∧
    (∃ d l,
      lookupDoc (insert_entity (insert_entity st A e) B e) e.entity = some d ∧
      d.datasets = some l ∧ A ∈ l ∧ B ∈ l ∧ l.Nodup) ∧
    (∀ x, scopeMem (insert_entity (insert_entity st A e) B e) e.entity x ↔
          scopeMem (insert_entity (insert_entity st B e) A e) e.entity x) ∧
    lookupDoc (insert_entity (insert_entity st A e) A e) e.entity =
      lookupDoc (insert_entity st A e) e.entity ∧
    keyCount (insert_entity (insert_entity st A e) A e) e.entity = 1 := by
  have hcount1 : ∀ d : Nat, keyCount (insert_entity st d e) e.entity = 1 := by
    intro d
    rw [keyCount_insert]
    by_cases h0 : lookupDoc st e.entity = none
    · rw [if_pos h0, (lookupDoc_eq_none_iff st e.entity).mp h0]
    · rw [if_neg h0]
      have hle := hwf.1 e.entity
      have hne : keyCount st e.entity ≠ 0 := fun hz =>
        h0 ((lookupDoc_eq_none_iff st e.entity).mpr hz)
      omega
  have hcount2 : ∀ d d2 : Nat,
      keyCount (insert_entity (insert_entity st d e) d2 e) e.entity = 1 := by
    intro d d2
    rw [keyCount_insert]
    have hsome : ¬ lookupDoc (insert_entity st d e) e.entity = none := by
      rw [lookupDoc_insert]
      simp
    rw [if_neg hsome]
    exact hcount1 d
  have hlook2 : ∀ d d2 : Nat,
      lookupDoc (insert_entity (insert_entity st d e) d2 e) e.entity =
        some (applyDatasetScript (refreshFields (applyDatasetScript
          ((lookupDoc st e.entity).elim (newDoc e)
            (fun dd => refreshFields dd e)) d) e) d2) := by
    intro d d2
    rw [lookupDoc_insert, lookupDoc_insert]
    rfl
  have hbnodup : ∀ l,
      ((lookupDoc st e.entity).elim (newDoc e)
        (fun dd => refreshFields dd e)).datasets = some l → l.Nodup := by
    cases ho : lookupDoc st e.entity with
    | none =>
      intro l hl
      simp [newDoc] at hl
    | some dd =>
      intro l hl
      simp only [Option.elim_some, refreshFields] at hl
      obtain ⟨kk, hmem⟩ := lookupDoc_mem st e.entity dd ho
      exact hwf.2 (kk, dd) hmem l hl
  have hdsets : ∀ d d2 : Nat,
      (applyDatasetScript (refreshFields (applyDatasetScript
        ((lookupDoc st e.entity).elim (newDoc e)
          (fun dd => refreshFields dd e)) d) e) d2).datasets =
      some (mergeDataset (some (mergeDataset
        (((lookupDoc st e.entity).elim (newDoc e)
          (fun dd => refreshFields dd e)).datasets) d)) d2) := by
    intro d d2
    rfl
  have hscope : ∀ d d2 x : Nat,
      scopeMem (insert_entity (insert_entity st d e) d2 e) e.entity x ↔
        x ∈ mergeDataset (some (mergeDataset
          (((lookupDoc st e.entity).elim (newDoc e)
            (fun dd => refreshFields dd e)).datasets) d)) d2 := by
    intro d d2 x
    unfold scopeMem
    rw [hlook2 d d2]
    constructor
    · rintro ⟨dd, l, hdd, hl, hx⟩
      have h1 : dd = applyDatasetScript (refreshFields (applyDatasetScript
          ((lookupDoc st e.entity).elim (newDoc e)
            (fun dd2 => refreshFields dd2 e)) d) e) d2 := by
        injection hdd with h1
        exact h1.symm
      subst h1
      rw [hdsets d d2] at hl
      injection hl with hl2
      rwa [hl2]
    · intro hx
      exact ⟨_, _, rfl, hdsets d d2, hx⟩
  refine ⟨hcount2 A B, hcount2 B A, ?_, ?_, ?_, hcount2 A A⟩
  · refine ⟨_, _, hlook2 A B, hdsets A B, ?_, ?_, ?_⟩
    · rw [mem_mergeDataset]
      exact Or.inl (by
        simp only [Option.getD_some]
        exact self_mem_mergeDataset _ A)
    · rw [mem_mergeDataset]
      exact Or.inr rfl
    · refine nodup_mergeDataset _ B ?_
      intro l hl
      injection hl with hl2
      rw [← hl2]
      exact nodup_mergeDataset _ A hbnodup
  · intro x
    rw [hscope A B x, hscope B A x]
    simp only [mem_mergeDataset, Option.getD_some]
    tauto
  · rw [hlook2 A A, lookupDoc_insert]
    cases ho : lookupDoc st e.entity with
    | none =>
      simp only [Option.elim_none]
      rw [show refreshFields (applyDatasetScript (newDoc e) A) e =
            applyDatasetScript (newDoc e) A from rfl]
      rw [show applyDatasetScript (applyDatasetScript (newDoc e) A) A =
            { applyDatasetScript (newDoc e) A with
              datasets := some (mergeDataset
                (some (mergeDataset (newDoc e).datasets A)) A) } from rfl]
      rw [mergeDataset_idem]
      rfl
    | some dd =>
      simp only [Option.elim_some]
      rw [show refreshFields (applyDatasetScript (refreshFields dd e) A) e =
            applyDatasetScript (refreshFields dd e) A from rfl]
      rw [show applyDatasetScript
            (applyDatasetScript (refreshFields dd e) A) A =
            { applyDatasetScript (refreshFields dd e) A with
              datasets := some (mergeDataset
                (some (mergeDataset (refreshFields dd e).datasets A)) A) }
          from rfl]
      rw [mergeDataset_idem]
      rfl

/-- Witness for C3 at a concrete input: two upserts of the Paris entity
under scopes 1 and 2 into an empty store. -/
theorem insert_entity_scope_merge_witness :
    ∃ d l, lookupDoc (insert_entity (insert_entity [] 1 parisInput) 2
        parisInput) parisInput.entity = some d ∧
      d.datasets = some l ∧ 1 ∈ l ∧ 2 ∈ l ∧ l.Nodup :=
  (insert_entity_scope_merge [] parisInput 1 2
    ⟨fun _ => Nat.zero_le 1, fun p hp => absurd hp (List.not_mem_nil p)⟩).2.2.1

/-- Every collected entry comes from one of the processed options. -/
theorem collect_mem (dsId : Nat) (opts : List EsSuggestOption)
    (entry : SuggestEntry) (h : entry ∈ collectSuggestEntries dsId opts) :
    ∃ o ∈ opts, processSuggestOption dsId o = .ok (some entry) := by
  induction opts with
  | nil => simp [collectSuggestEntries] at h
  | cons o rest ih =>
    cases hpo : processSuggestOption dsId o with
    | ok r =>
      cases r with
      | some e2 =>
        rw [collectSuggestEntries, hpo] at h
        rcases List.mem_cons.mp h with h1 | h2
        · exact ⟨o, List.mem_cons_self o rest, by rw [hpo, h1]⟩
        · obtain ⟨o2, ho2, hp2⟩ := ih h2
          exact ⟨o2, List.mem_cons_of_mem o ho2, hp2⟩
      | none =>
        rw [collectSuggestEntries, hpo] at h
        obtain ⟨o2, ho2, hp2⟩ := ih h
        exact ⟨o2, List.mem_cons_of_mem o ho2, hp2⟩
    | error k =>
      rw [collectSuggestEntries, hpo] at h
      simp [ite_self] at h

/-- An option that yields an entry was in scope: its document has a
`datasets` list containing the DAO's dataset id. -/
theorem processOption_scoped (dsId : Nat) (o : EsSuggestOption)
    (entry : SuggestEntry)
    (h : processSuggestOption dsId o = .ok (some entry)) :
    ∃ src ds, o.source = some src ∧ src.datasets = some ds ∧ dsId ∈ ds := by
  cases hs : o.source with
  | none =>
    simp only [processSuggestOption, hs] at h
    cases h
  | some src =>
    cases hd : src.datasets with
    | none =>
      simp only [processSuggestOption, hs, hd] at h
      rw [show (strKeyError "datasets" == "datasets") = false from by decide]
        at h
      simp at h
    | some ds =>
      by_cases hmem : dsId ∈ ds
      · exact ⟨src, ds, rfl, hd, hmem⟩
      · exfalso
        simp only [processSuggestOption, hs, hd] at h
        rw [if_neg hmem] at h
        cases h

/-- C4: `suggest_entity` never returns an entry whose document's
`datasets` set lacks the DAO's dataset id: every returned entry was
produced (via `processSuggestOption`) by an option of the response whose
document's `datasets` contains the id; an option whose document lacks
the `datasets` field can never produce an entry, so such documents are
excluded from the results; and their presence never turns the call into
an error: whenever the engine returned an options list, the call
returns `.ok`. -/
theorem suggest_entity_scope_filter (dsId : Nat) :
    (∀ resp l, suggest_entity dsId resp = .ok l →
      ∀ entry ∈ l, ∃ o ∈ respOptions resp,
        processSuggestOption dsId o = .ok (some entry) ∧ ∃ src ds,
          o.source = some src ∧ src.datasets = some ds ∧ dsId ∈ ds) ∧
    (∀ (o : EsSuggestOption) (src : EsSource), o.source = some src →
      src.datasets = none →
      ∀ entry, ¬ processSuggestOption dsId o = .ok (some entry)) ∧
    (∀ (opts : List EsSuggestOption) (rest : List EsSuggestHit),
      ∃ l, suggest_entity dsId ⟨some (⟨some opts⟩ :: rest)⟩ = .ok l) := by
  refine ⟨?_, ?_, ?_⟩
  · intro resp l h entry hentry
    obtain ⟨ents⟩ := resp
    cases ents with
    | none =>
      rw [show suggest_entity dsId ⟨none⟩ = .ok [] from rfl] at h
      injection h with h2
      rw [← h2] at hentry
      cases hentry
    | some hits =>
      cases hits with
      | nil => cases h
      | cons hit rest =>
        obtain ⟨optsO⟩ := hit
        cases optsO with
        | none =>
          rw [show suggest_entity dsId ⟨some (⟨none⟩ :: rest)⟩ = .ok []
            from rfl] at h
          injection h with h2
          rw [← h2] at hentry
          cases hentry
        | some opts =>
          rw [show suggest_entity dsId ⟨some (⟨some opts⟩ :: rest)⟩ =
              .ok (collectSuggestEntries dsId opts) from rfl] at h
          injection h with h2
          rw [← h2] at hentry
          obtain ⟨o, ho, hp⟩ := collect_mem dsId opts entry hentry
          obtain ⟨src, ds, hsrc, hds, hmem⟩ :=
            processOption_scoped dsId o entry hp
          exact ⟨o, by simpa [respOptions] using ho, hp,
            src, ds, hsrc, hds, hmem⟩
  · intro o src hsrc hds entry hcontra
    simp only [processSuggestOption, hsrc, hds] at hcontra
    rw [show (strKeyError "datasets" == "datasets") = false from by decide]
      at hcontra
    simp at hcontra
  · intro opts rest
    exact ⟨_, rfl⟩

/-- Witness for C4: with one document scoped to datasets `[1,2]` and one
lacking the `datasets` field, the returned Paris entry is produced by
the option scoped to dataset 1, the unscoped option can produce no
entry at all, and the call returns `.ok`. -/
theorem suggest_entity_scope_filter_witness :
    (∃ o ∈ respOptions ⟨some [⟨some [parisOption, unscopedOption]⟩]⟩,
      processSuggestOption 1 o = .ok (some parisEntry) ∧ ∃ src ds,
        o.source = some src ∧ src.datasets = some ds ∧ 1 ∈ ds) ∧
    (∀ entry, ¬ processSuggestOption 1 unscopedOption =
      .ok (some entry)) ∧
    (∃ l, suggest_entity 1
      ⟨some [⟨some [parisOption, unscopedOption]⟩]⟩ = .ok l) :=
  ⟨(suggest_entity_scope_filter 1).1
      ⟨some [⟨some [parisOption, unscopedOption]⟩]⟩ [parisEntry]
      rfl parisEntry (by decide),
   (suggest_entity_scope_filter 1).2.1 unscopedOption
      ⟨some "Q2", some [("en", "Lyon")], some [], some [], none⟩ rfl rfl,
   (suggest_entity_scope_filter 1).2.2 [parisOption, unscopedOption] []⟩

/-- C6: when the engine response has no match entry for the query — the
`entities` key absent (index not yet populated, per the source comment),
the `options` key absent, or an empty options list (no matches) —
`suggest_entity` returns the empty list and raises nothing. -/
theorem suggest_entity_empty_cases (dsId : Nat) (rest : List EsSuggestHit) :
    suggest_entity dsId ⟨none⟩ = .ok [] ∧
    suggest_entity dsId ⟨some (⟨none⟩ :: rest)⟩ = .ok [] ∧
    suggest_entity dsId ⟨some (⟨some []⟩ :: rest)⟩ = .ok [] :=
  ⟨rfl, rfl, rfl⟩

/-- When every option before position i processes cleanly and option i
raises, the loop's result is exactly the entries of the clean prefix. -/
theorem collect_prefix_error (dsId : Nat) (pre : List EsSuggestOption)
    (o : EsSuggestOption) (restOpts : List EsSuggestOption) (k : String)
    (hpre : ∀ p ∈ pre, ∃ r, processSuggestOption dsId p = .ok r)
    (ho : processSuggestOption dsId o = .error k) :
    collectSuggestEntries dsId (pre ++ o :: restOpts) = okEntries dsId pre := by
  induction pre with
  | nil =>
    rw [List.nil_append, collectSuggestEntries, ho]
    simp [okEntries, ite_self]
  | cons p pre ih =>
    obtain ⟨r, hr⟩ := hpre p (List.mem_cons_self p pre)
    have hpre2 : ∀ q ∈ pre, ∃ r2, processSuggestOption dsId q = .ok r2 :=
      fun q hq => hpre q (List.mem_cons_of_mem p hq)
    cases r with
    | some entry =>
      rw [List.cons_append, collectSuggestEntries, hr, ih hpre2]
      simp [okEntries, List.filterMap_cons, hr]
    | none =>
      rw [List.cons_append, collectSuggestEntries, hr, ih hpre2]
      simp [okEntries, List.filterMap_cons, hr]

/-- C9: if, while iterating the options, processing one document raises
a missing-key error for a key other than `datasets` (and other than the
top-level `entities` key), `suggest_entity` returns the partial list of
entities accumulated up to that point instead of propagating the
error. -/
theorem suggest_entity_partial_on_keyerror (dsId : Nat)
    (pre restOpts : List EsSuggestOption) (o : EsSuggestOption)
    (rest : List EsSuggestHit) (k : String)
    (hpre : ∀ p ∈ pre, ∃ r, processSuggestOption dsId p = .ok r)
    (ho : processSuggestOption dsId o = .error k)
    (_hk1 : k ≠ "datasets") (_hk2 : k ≠ "entities") :
    suggest_entity dsId ⟨some (⟨some (pre ++ o :: restOpts)⟩ :: rest)⟩ =
      .ok (okEntries dsId pre) := by
  rw [show suggest_entity dsId
        ⟨some (⟨some (pre ++ o :: restOpts)⟩ :: rest)⟩ =
      .ok (collectSuggestEntries dsId (pre ++ o :: restOpts)) from rfl]
  rw [collect_prefix_error dsId pre o restOpts k hpre ho]

/-- Witness for C9: the second option lacks its `text` key
(`KeyError("text")`); the Paris entry collected before it is returned,
the later in-scope option is dropped, and no error escapes. -/
theorem suggest_entity_partial_on_keyerror_witness :
    suggest_entity 1
      ⟨some [⟨some ([parisOption] ++ missingTextOption :: [parisOption])⟩]⟩ =
      .ok (okEntries 1 [parisOption]) :=
  suggest_entity_partial_on_keyerror 1 [parisOption] [parisOption]
    missingTextOption [] "text"
    (by
      intro p hp
      rw [List.mem_singleton] at hp
      refine ⟨some parisEntry, ?_⟩
      rw [hp]
      rfl)
    rfl (by decide) (by decide)

/-- C8: omitting the `limit` query parameter behaves exactly like passing
`limit=10` (the oracle is then asked for 10+1 neighbors), and omitting
`search_k` behaves exactly like passing `search_k=-1`. -/
theorem on_get_parameter_defaults (ctx : ServerCtx) (e : EntityParam)
    (lp skp : Option Int) :
    onGetLimitArg none = 10 + 1 ∧ onGetSearchK none = -1 ∧
    predictSimilar_on_get ctx e none skp =
      predictSimilar_on_get ctx e (some 10) skp ∧
    predictSimilar_on_get ctx e lp none =
      predictSimilar_on_get ctx e lp (some (-1)) :=
  ⟨rfl, rfl, rfl, rfl⟩

/-- Counterexample to C1 as stated: with the spec's own oracle answer
`[(Q1,0.0),(Q2,0.4),(Q3,0.9)]` for query Q1 with `limit=2`, the response
has 3 items (more than `limit`), still contains the queried entity Q1 at
distance 0, and is not `[{Q2,0.4}]` (its `==` test against that list is
`false`). -/
theorem similar_by_reference_self_included_cex :
    predictSimilar_on_get ctxC1 (.ref "Q1") (some 2) none = .ok simC1Result ∧
    simC1Result.response.length = 3 ∧
    SimEntry.mk (some "Q1") 0 ∈ simC1Result.response ∧
    (simC1Result.response == [SimEntry.mk (some "Q2") (2/5)]) = false := by
  refine ⟨rfl, rfl, ?_, ?_⟩ <;> decide

/-- C1 amended: the by-reference path requests `limit+1` neighbors from
the oracle but then returns every returned neighbor, mapped to metadata
in oracle order — without removing the queried entity and without
truncating to `limit` — so whenever the oracle honors the requested
count, the response holds at most `limit+1` items. -/
theorem similar_by_reference_returns_all (ctx : ServerCtx)
    (s dsetDict ixname : String) (eid : Nat) (N : Int) (skp : Option Int)
    (hdto : ctx.dto = some dsetDict) (hix : ctx.searchIndex = some ixname)
    (hid : ctx.getEntityId s = some eid)
    (hbound : ((ctx.similarityById eid (N + 1) (onGetSearchK skp)).length : Int)
      ≤ N + 1) :
    predictSimilar_on_get ctx (.ref s) (some N) skp =
      .ok { dataset := dsetDict
            entityUsed := .uri (ctx.getEntity eid)
            limit := ((ctx.similarityById eid (N + 1) (onGetSearchK skp)).map
              (fun p => SimEntry.mk (ctx.getEntity p.1) p.2)).length
            searchK := onGetSearchK skp
            response := (ctx.similarityById eid (N + 1)
              (onGetSearchK skp)).map
              (fun p => SimEntry.mk (ctx.getEntity p.1) p.2) } ∧
    (((ctx.similarityById eid (N + 1) (onGetSearchK skp)).map
        (fun p => SimEntry.mk (ctx.getEntity p.1) p.2)).length : Int)
      ≤ N + 1 := by
  constructor
  · simp only [predictSimilar_on_get, hdto, hix, hid, onGetLimitArg,
      Option.getD_some]
  · rw [List.length_map]
    exact hbound

/-- Witness for the amended C1 at the spec example: 3 items come back
for `limit=2`, within the `limit+1 = 3` bound. -/
theorem similar_by_reference_returns_all_witness :
    predictSimilar_on_get ctxC1 (.ref "Q1") (some 2) none =
      .ok { dataset := "D1"
            entityUsed := .uri (ctxC1.getEntity 0)
            limit := ((ctxC1.similarityById 0 (2 + 1) (onGetSearchK none)).map
              (fun p => SimEntry.mk (ctxC1.getEntity p.1) p.2)).length
            searchK := onGetSearchK none
            response := (ctxC1.similarityById 0 (2 + 1)
              (onGetSearchK none)).map
              (fun p => SimEntry.mk (ctxC1.getEntity p.1) p.2) } ∧
    (((ctxC1.similarityById 0 (2 + 1) (onGetSearchK none)).map
        (fun p => SimEntry.mk (ctxC1.getEntity p.1) p.2)).length : Int)
      ≤ 2 + 1 :=
  similar_by_reference_returns_all ctxC1 "Q1" "D1" "index" 0 2 none
    rfl rfl (by decide) (by decide)

/-- C10: the POST similarity endpoint matches the entity type
case-insensitively: a type lowercasing to "uri" takes the by-reference
path, one lowercasing to "embedding" takes the by-embedding path, and
any other type is answered with the 400 response carrying the
explanatory message. -/
theorem on_post_type_dispatch (body : SimPostBody) (ef : SimPostEntityField)
    (t : String) (v : SimValue)
    (hb : body.entity = some ef) (ht : ef.ty = some t)
    (hv : ef.value = some v) :
    (pyLower t = "uri" →
      predictSimilar_on_post body = .getCalled v false) ∧
    (pyLower t = "embedding" →
      predictSimilar_on_post body = .getCalled v true) ∧
    (pyLower t ≠ "uri" → pyLower t ≠ "embedding" →
      predictSimilar_on_post body =
        .badRequest400 (unrecognizedTypeMsg t ef)) := by
  refine ⟨?_, ?_, ?_⟩
  · intro h
    have hbeq : (pyLower t == "uri") = true := beq_iff_eq.mpr h
    simp [predictSimilar_on_post, hb, ht, hv, hbeq]
  · intro h
    have hne : pyLower t ≠ "uri" := by
      rw [h]
      decide
    have hbeq1 : (pyLower t == "uri") = false := beq_eq_false_iff_ne.mpr hne
    have hbeq2 : (pyLower t == "embedding") = true := beq_iff_eq.mpr h
    simp [predictSimilar_on_post, hb, ht, hv, hbeq1, hbeq2]
  · intro h1 h2
    have hbeq1 : (pyLower t == "uri") = false := beq_eq_false_iff_ne.mpr h1
    have hbeq2 : (pyLower t == "embedding") = false :=
      beq_eq_false_iff_ne.mpr h2
    simp [predictSimilar_on_post, hb, ht, hv, hbeq1, hbeq2]

/-- Witness for C10: an uppercase "URI" type takes the by-reference
path. -/
theorem on_post_type_dispatch_witness :
    predictSimilar_on_post ⟨some ⟨some (.vstr "Q1"), some "URI"⟩⟩ =
      .getCalled (.vstr "Q1") false :=
  (on_post_type_dispatch ⟨some ⟨some (.vstr "Q1"), some "URI"⟩⟩
    ⟨some (.vstr "Q1"), some "URI"⟩ "URI" (.vstr "Q1") rfl rfl rfl).1
    (by decide)

/-- C2 is a code bug: the guard `not isinstance(...) and len(...) != 2`
short-circuits to false for every list, so the three-element body
`{"distance": ["a","b","c"]}` passes validation, its first two
references are resolved, and the request even succeeds — no
InvalidRequest-class error is raised before resolution. -/
theorem distance_arity_check_bypassed :
    parseDistanceBody (some (.vlist ["a", "b", "c"])) = .proceed "a" "b" ∧
    distanceTriples_on_post ctxC2 (some (.vlist ["a", "b", "c"])) =
      .ok (1/2) :=
  ⟨rfl, rfl⟩

/-- `Nat.digitChar` yields a decimal digit character below base 10. -/
theorem digitChar_isDigit : ∀ m, m < 10 → (Nat.digitChar m).isDigit = true :=
  by decide

/-- Every character `Nat.toDigitsCore` emits in base 10 is a digit. -/
theorem toDigitsCore_digits (fuel : Nat) :
    ∀ (n : Nat) (ds : List Char), (∀ c ∈ ds, c.isDigit = true) →
    ∀ c ∈ Nat.toDigitsCore 10 fuel n ds, c.isDigit = true := by
  induction fuel with
  | zero =>
    intro n ds h c hc
    exact h c hc
  | succ f ih =>
    intro n ds h c hc
    simp only [Nat.toDigitsCore] at hc
    have hall : ∀ c2 ∈ (Nat.digitChar (n % 10) :: ds), c2.isDigit = true := by
      intro c2 hc2
      rcases List.mem_cons.mp hc2 with h1 | h2
      · rw [h1]
        exact digitChar_isDigit (n % 10) (Nat.mod_lt n (by decide))
      · exact h c2 h2
    by_cases hz : n / 10 = 0
    · rw [if_pos hz] at hc
      exact hall c hc
    · rw [if_neg hz] at hc
      exact ih (n / 10) _ hall c hc

/-- The characters of `Nat.repr` are exactly `Nat.toDigits 10`. -/
theorem repr_data (n : Nat) : (Nat.repr n).data = Nat.toDigits 10 n := rfl

/-- Every character of a natural number's decimal rendering is a digit. -/
theorem repr_digits (n : Nat) : ∀ c ∈ (Nat.repr n).data, c.isDigit = true :=
  fun c hc => toDigitsCore_digits (n + 1) n []
    (fun _ hx => absurd hx (List.not_mem_nil _)) c hc

/-- The interpolated id token never contains a space. -/
theorem pyStrOptNat_no_space (o : Option Nat) :
    ∀ c ∈ (pyStrOptNat o).data, (decide (c ≠ ' ')) = true := by
  cases o with
  | none => decide
  | some n =>
    intro c hc
    have hd := repr_digits n c hc
    apply decide_eq_true
    intro heq
    rw [heq] at hd
    exact absurd hd (by decide)

/-- The interpolated id token reads "None" exactly for an unresolved
id. -/
theorem pyStrOptNat_none_iff (o : Option Nat) :
    pyStrOptNat o = "None" ↔ o = none := by
  cases o with
  | none => simp [pyStrOptNat]
  | some n =>
    simp only [pyStrOptNat]
    constructor
    · intro h
      have hdata := congrArg String.data h
      have hN : 'N' ∈ (Nat.repr n).data := by
        rw [hdata]
        decide
      have := repr_digits n 'N' hN
      exact absurd this (by decide)
    · intro h
      cases h

/-- Reading a space-free token after a fixed-length head: dropping the
head and taking up to the first space recovers the token. -/
theorem token_extract_front (H tok rest R : List Char) (n : Nat)
    (hn : n = H.length) (hR : R = H ++ (tok ++ (' ' :: rest)))
    (htok : ∀ c ∈ tok, (decide (c ≠ ' ')) = true) :
    (R.drop n).takeWhile (fun c => decide (c ≠ ' ')) = tok := by
  subst hn
  subst hR
  rw [List.drop_left, List.takeWhile_append_of_pos htok,
    List.takeWhile_cons_of_neg (by simp), List.append_nil]

/-- Reading a space-free token before a known-length tail: dropping the
tail from the reversed list, taking up to the first space and reversing
recovers the token, provided a space precedes it. -/
theorem token_extract_back (P0 tok M Y T R : List Char) (n : Nat)
    (hn : n = T.length + Y.length + M.length)
    (hR : R = P0 ++ ([' '] ++ (tok ++ (M ++ (Y ++ T)))))
    (htok : ∀ c ∈ tok, (decide (c ≠ ' ')) = true) :
    ((R.reverse.drop n).takeWhile (fun c => decide (c ≠ ' '))).reverse =
      tok := by
  subst hn
  subst hR
  have hsplit :
      (P0 ++ ([' '] ++ (tok ++ (M ++ (Y ++ T))))).reverse =
        (T.reverse ++ Y.reverse ++ M.reverse) ++
          (tok.reverse ++ (' ' :: P0.reverse)) := by
    simp [List.reverse_append, List.append_assoc]
  rw [hsplit]
  rw [List.drop_left' (by simp; omega)]
  have htokrev : ∀ c ∈ tok.reverse, (decide (c ≠ ' ')) = true := by
    intro c hc
    exact htok c (List.mem_reverse.mp hc)
  rw [List.takeWhile_append_of_pos htokrev,
    List.takeWhile_cons_of_neg (by simp), List.append_nil,
    List.reverse_reverse]

/-- Decoding the first id slot of the not-found description recovers the
rendering of the first resolution result. -/
theorem firstIdToken_desc (ix iy : Option Nat) (x y : String) :
    firstIdToken (distanceNotFoundDesc ix x iy y) = pyStrOptNat ix := by
  have hR : (distanceNotFoundDesc ix x iy y).data =
      "The ".data ++ ((pyStrOptNat ix).data ++ (' ' ::
        ("id from entity ".data ++ (x.data ++ (" or the ".data ++
         ((pyStrOptNat iy).data ++ (" id from ".data ++ (y.data ++
          " entity can\x27t be found on the dataset".data)))))))) := by
    simp [distanceNotFoundDesc, String.data_append, List.append_assoc]
  have h1 := token_extract_front "The ".data (pyStrOptNat ix).data _ _
    "The ".length rfl hR (pyStrOptNat_no_space ix)
  unfold firstIdToken
  rw [h1]

/-- Decoding the second id slot of the not-found description (for a
known second reference) recovers the rendering of the second resolution
result. -/
theorem secondIdToken_desc (ix iy : Option Nat) (x y : String) :
    secondIdToken y (distanceNotFoundDesc ix x iy y) = pyStrOptNat iy := by
  have hR : (distanceNotFoundDesc ix x iy y).data =
      ("The ".data ++ ((pyStrOptNat ix).data ++
        (" id from entity ".data ++ (x.data ++ " or the".data)))) ++
      ([' '] ++ ((pyStrOptNat iy).data ++ (" id from ".data ++ (y.data ++
        " entity can\x27t be found on the dataset".data)))) := by
    simp [distanceNotFoundDesc, String.data_append, List.append_assoc]
  have h2 := token_extract_back
    ("The ".data ++ ((pyStrOptNat ix).data ++
      (" id from entity ".data ++ (x.data ++ " or the".data))))
    (pyStrOptNat iy).data " id from ".data y.data
    " entity can\x27t be found on the dataset".data
    (distanceNotFoundDesc ix x iy y).data
    (" entity can\x27t be found on the dataset".length + y.length +
      " id from ".length)
    rfl hR (pyStrOptNat_no_space iy)
  unfold secondIdToken
  rw [h2]

/-- C5: over a ready dataset, a distance request in which one or both of
the two references cannot be resolved fails with the `HTTPNotFound`
(EntityNotFound-class) error — never the generic bad-request — and its
description identifies the specific unresolved reference(s): the id slot
belonging to a reference reads "None" exactly when that reference failed
to resolve, and a resolved id's decimal digits can never read "None". -/
theorem distance_unresolved_identifies (ctx : ServerCtx)
    (a b dsetDict ixname : String)
    (hdto : ctx.dto = some dsetDict) (hix : ctx.searchIndex = some ixname)
    (h : ctx.getEntityId a = none ∨ ctx.getEntityId b = none) :
    distanceTriples_on_post ctx (some (.vlist [a, b])) =
      .err (.notFound (distanceNotFoundDesc (ctx.getEntityId a) a
        (ctx.getEntityId b) b)) ∧
    (firstIdToken (distanceNotFoundDesc (ctx.getEntityId a) a
        (ctx.getEntityId b) b) = "None" ↔ ctx.getEntityId a = none) ∧
    (secondIdToken b (distanceNotFoundDesc (ctx.getEntityId a) a
        (ctx.getEntityId b) b) = "None" ↔ ctx.getEntityId b = none) := by
  refine ⟨?_, ?_, ?_⟩
  · have hparse : parseDistanceBody (some (.vlist [a, b])) = .proceed a b :=
      rfl
    rcases hA : ctx.getEntityId a with _ | nx
    · simp [distanceTriples_on_post, hparse, hdto, hix, hA]
    · rcases hB : ctx.getEntityId b with _ | ny
      · simp [distanceTriples_on_post, hparse, hdto, hix, hA, hB]
      · exfalso
        rcases h with h1 | h1
        · rw [hA] at h1
          cases h1
        · rw [hB] at h1
          cases h1
  · rw [firstIdToken_desc]
    exact pyStrOptNat_none_iff _
  · rw [secondIdToken_desc]
    exact pyStrOptNat_none_iff _

/-- Witness for C5: reference "Qx" is unresolvable, "Qy" resolves to id
7; the request fails with the not-found description whose first slot
reads "None" and whose second slot does not. -/
theorem distance_unresolved_identifies_witness :
    distanceTriples_on_post ctxC5 (some (.vlist ["Qx", "Qy"])) =
      .err (.notFound (distanceNotFoundDesc (ctxC5.getEntityId "Qx") "Qx"
        (ctxC5.getEntityId "Qy") "Qy")) ∧
    (firstIdToken (distanceNotFoundDesc (ctxC5.getEntityId "Qx") "Qx"
        (ctxC5.getEntityId "Qy") "Qy") = "None" ↔
      ctxC5.getEntityId "Qx" = none) ∧
    (secondIdToken "Qy" (distanceNotFoundDesc (ctxC5.getEntityId "Qx") "Qx"
        (ctxC5.getEntityId "Qy") "Qy") = "None" ↔
      ctxC5.getEntityId "Qy" = none) :=
  distance_unresolved_identifies ctxC5 "Qx" "Qy" "D1" "index" rfl rfl
    (Or.inl (by decide))
